import Mathlib

/-!
Shallow embedding of the chaskibotslab/plataforma-educativa-backend HTTP
gateway (three server.js variants: src/server.js, src/unnamed/part_000,
src/unnamed/part_001).  Route handlers are modelled as pure functions from
the request data and the results of the external Supabase calls to the JSON
response; the PostgREST query chains (.eq filters, .order, .single) are
modelled over explicit row lists.  Calls actually issued to the external
service are reported as an explicit trace.
-/

namespace Gateway

/-- JS truthiness of an optional JSON string field: a missing or null field
(`none`) and the empty string are falsy, every other string is truthy. -/
def truthy : Option String → Bool
  | none => false
  | some s => !s.isEmpty

/-- The JS expression `a || b` for an optional string `a` with default `b`:
the default is taken when `a` is absent or the empty string. -/
def jsOr (a : Option String) (b : String) : String :=
  match a with
  | some s => if s.isEmpty then b else s
  | none => b

/-- Result of a PostgREST `.single()` call: a row exactly when the filtered
result set has exactly one row; zero rows or several rows yield an error
(`none`, collapsed with the transport-error case handled by callers). -/
def singleRow {α : Type} (rows : List α) : Option α :=
  match rows with
  | [r] => some r
  | _ => none

/-! ## Data model: rows of the external tables -/

/-- Row of the `instituciones` table (columns used by the gateway). -/
structure Institucion where
  id : Nat
  nombre : String
  codigo_acceso : String
  activo : Bool
deriving DecidableEq, Repr

/-- Row of the `niveles` table (columns used by the gateway). -/
structure Nivel where
  id : Nat
  nombre : String
  descripcion : String
  orden_nivel : Int
  activo : Bool
deriving DecidableEq, Repr

/-- Row of the `cursos` table (columns used by the gateway). -/
structure Curso where
  id : Nat
  nivel_id : Nat
  nombre : String
  orden_curso : Int
  activo : Bool
deriving DecidableEq, Repr

/-- Row of the `lecciones` table (columns used by the gateway). -/
structure Leccion where
  id : Nat
  curso_id : Nat
  nombre : String
  orden_leccion : Int
  activo : Bool
deriving DecidableEq, Repr

/-- Row of the `usuarios` table (columns used by the gateway). -/
structure Usuario where
  id : String
  institucion_id : Option Nat
  nombre : String
  apellidos : String
  email : String
  rol : String
  grado : String
  activo : Bool
deriving DecidableEq, Repr

/-! ## Queries of the list endpoints

PostgREST `.order(col)` sorts ascending by default and is stable; it is
modelled by `List.insertionSort`, which is stable.  `.eq(col, v)` filters
are modelled by `List.filter`. -/

/-- Query of GET /api/niveles:
from niveles, select all, eq activo true, order orden_nivel. -/
def queryNiveles (t : List Nivel) : List Nivel :=
  List.insertionSort (fun a b => a.orden_nivel ≤ b.orden_nivel)
    (t.filter (fun n => n.activo))

/-- A `cursos` row together with its embedded `niveles(...)` join row;
serialisation picks the selected columns of the joined `Nivel`. -/
structure CursoRow where
  curso : Curso
  niveles : Option Nivel
deriving DecidableEq, Repr

/-- The embedded resource `niveles(...)` of a course: the level row whose id
is the course's `nivel_id` (a left join: `none` when there is no match). -/
def joinNivel (niveles : List Nivel) (c : Curso) : CursoRow :=
  ⟨c, niveles.find? (fun n => n.id == c.nivel_id)⟩

/-- Query of GET /api/cursos/:nivelId:
from cursos, select all with join niveles(nombre, descripcion),
eq nivel_id nivelId, eq activo true, order orden_curso.
The URL parameter is modelled after PostgREST integer coercion as a `Nat`. -/
def queryCursosByNivel (nivelId : Nat) (niveles : List Nivel) (cursos : List Curso) :
    List CursoRow :=
  (List.insertionSort (fun a b => a.orden_curso ≤ b.orden_curso)
      (cursos.filter (fun c => c.nivel_id == nivelId && c.activo))).map
    (joinNivel niveles)

/-- The optional level filter of GET /api/cursos (part_001 lines 196-206):
when a `nivel` query parameter is present, the id of the unique level with
that name, looked up with `.eq(nombre, nivel).single()` and with the lookup
error ignored; `none` when no parameter was given or the lookup found no
unique row, in which case no `nivel_id` filter is added to the query. -/
def nivelFilterId (nivelParam : Option String) (niveles : List Nivel) : Option Nat :=
  match nivelParam with
  | none => none
  | some n => (singleRow (niveles.filter (fun v => v.nombre == n))).map (fun v => v.id)

/-- Query of GET /api/cursos (part_001 lines 183-230): all active courses,
optionally restricted to the level named by the `nivel` query parameter,
ordered by orden_curso, with the embedded niveles join. -/
def queryCursosAll (nivelParam : Option String) (niveles : List Nivel)
    (cursos : List Curso) : List CursoRow :=
  let filtered :=
    match nivelFilterId nivelParam niveles with
    | some i => cursos.filter (fun c => c.activo && c.nivel_id == i)
    | none => cursos.filter (fun c => c.activo)
  (List.insertionSort (fun a b => a.orden_curso ≤ b.orden_curso) filtered).map
    (joinNivel niveles)

/-- Query of GET /api/lecciones/:cursoId:
from lecciones, select all, eq curso_id cursoId, eq activo true,
order orden_leccion. -/
def queryLecciones (cursoId : Nat) (t : List Leccion) : List Leccion :=
  List.insertionSort (fun a b => a.orden_leccion ≤ b.orden_leccion)
    (t.filter (fun l => l.curso_id == cursoId && l.activo))

/-- Query of GET /api/instituciones:
from instituciones, select id nombre codigo_acceso, eq activo true.
No `.order(...)` clause is applied: rows keep their upstream order. -/
def queryInstituciones (t : List Institucion) : List Institucion :=
  t.filter (fun i => i.activo)

/-! ## List endpoint handlers (server.js lines 110-239, part_001 115-294) -/

/-- Response of a list endpoint.  On the 500 branch the real JSON body has
no success, count or list field, modelled as `false`, `0`, `[]`. -/
structure ListResp (α : Type) where
  status : Nat
  success : Bool
  count : Nat
  items : List α
  error : Option String
  details : Option String
deriving DecidableEq, Repr

/-- Common body of the list endpoint handlers: the argument is the result
the upstream query returned; an error yields 500 with the endpoint's error
text and the upstream message as details, success yields 200 with
`success: true`, `count: data.length` and the rows. -/
def listHandler {α : Type} (errText : String) (result : Except String (List α)) :
    ListResp α :=
  match result with
  | .error e => ⟨500, false, 0, [], some errText, some e⟩
  | .ok data => ⟨200, true, data.length, data, none, none⟩

/-- GET /api/niveles handler (server.js lines 110-138). -/
def nivelesHandler (result : Except String (List Nivel)) : ListResp Nivel :=
  listHandler "Error al obtener niveles" result

/-- GET /api/cursos/:nivelId handler (server.js lines 141-175). -/
def cursosHandler (result : Except String (List CursoRow)) : ListResp CursoRow :=
  listHandler "Error al obtener cursos" result

/-- GET /api/cursos handler (part_001 lines 183-230). -/
def cursosAllHandler (result : Except String (List CursoRow)) : ListResp CursoRow :=
  listHandler "Error al obtener cursos" result

/-- GET /api/lecciones/:cursoId handler (server.js lines 178-209). -/
def leccionesHandler (result : Except String (List Leccion)) : ListResp Leccion :=
  listHandler "Error al obtener lecciones" result

/-- GET /api/instituciones handler (server.js lines 212-239). -/
def institucionesHandler (result : Except String (List Institucion)) :
    ListResp Institucion :=
  listHandler "Error al obtener instituciones" result

/-- GET /api/cursos end to end on a successful upstream call: the query of
part_001 applied to the tables, fed to the 200 branch of the handler. -/
def cursosAllEndpoint (nivelParam : Option String) (niveles : List Nivel)
    (cursos : List Curso) : ListResp CursoRow :=
  cursosAllHandler (.ok (queryCursosAll nivelParam niveles cursos))

/-! ## Registration (POST /api/auth/registro-estudiante) -/

/-- One call issued to the external Supabase service. `deleteUser` is the
auth-account rollback operation: no handler of the repository ever issues
it, which the traces make checkable. -/
inductive ExtCall where
  | instLookup
  | emailLookup
  | signUp
  | insertUsuario
  | deleteUser
deriving DecidableEq, Repr

/-- JSON body of a registration request: each field is absent/null (`none`)
or a string. -/
structure RegBody where
  nombre : Option String
  apellidos : Option String
  email : Option String
  password : Option String
  codigo_institucion : Option String
  grado : Option String
deriving DecidableEq, Repr

/-- The validation check of the registration handlers:
the JS condition `nombre && apellidos && email && password &&
codigo_institucion && grado` (the handler rejects when its negation holds). -/
def allFieldsPresent (b : RegBody) : Bool :=
  truthy b.nombre && truthy b.apellidos && truthy b.email && truthy b.password &&
    truthy b.codigo_institucion && truthy b.grado

/-- The user returned by a successful `supabase.auth.signUp` call
(the fields of `authUser.user` the handlers read). -/
structure AuthUser where
  id : String
  email : String
deriving DecidableEq, Repr

/-- The `user` object of a 201 registration response. -/
structure UserSummary where
  id : String
  email : String
  nombre : String
  apellidos : String
  rol : String
  grado : String
  institucion : String
deriving DecidableEq, Repr

/-- Response of the registration handler.  Bodies that lack a field in the
source (the 400 bodies have no success/message/user) are modelled with
`false`/`none` there. -/
structure RegResponse where
  status : Nat
  success : Bool
  error : Option String
  message : Option String
  user : Option UserSummary
deriving DecidableEq, Repr

/-- The institution lookup filter of registration:
from instituciones, select id nombre, eq codigo_acceso codigo,
eq activo true (then `.single()`). -/
def matchingInstituciones (insts : List Institucion) (codigo : String) :
    List Institucion :=
  insts.filter (fun i => i.codigo_acceso == codigo && i.activo)

/-- POST /api/auth/registro-estudiante (server.js lines 244-311).  Inputs
beyond the request body: the instituciones table, whether the lookup call
itself failed in transport (`instFail`, the part of `instError` not covered
by `.single()` row counting), and the outcome the auth service would return
for `signUp`.  Output: the response paired with the trace of external calls
actually issued. -/
def registroEstudiante (b : RegBody) (insts : List Institucion) (instFail : Bool)
    (signUpResult : Except String AuthUser) : RegResponse × List ExtCall :=
  if allFieldsPresent b = false then
    (⟨400, false, some "Todos los campos son requeridos", none, none⟩, [])
  else
    let lookup : Option Institucion :=
      if instFail then none
      else singleRow (matchingInstituciones insts (b.codigo_institucion.getD ""))
    match lookup with
    | none => (⟨400, false, some "Código de institución inválido", none, none⟩,
        [.instLookup])
    | some inst =>
      match signUpResult with
      | .error m => (⟨400, false, some ("Error al crear usuario: " ++ m), none, none⟩,
          [.instLookup, .signUp])
      | .ok au =>
        (⟨201, true, none, some "Estudiante registrado exitosamente",
            some ⟨au.id, au.email, b.nombre.getD "", b.apellidos.getD "",
              "estudiante", b.grado.getD "", inst.nombre⟩⟩,
          [.instLookup, .signUp])

/-- POST /api/auth/registro-estudiante of part_001 (lines 299-389): as
`registroEstudiante`, but after a successful signUp it also inserts a row
into the usuarios table; a failing insert (`insertFail`) is only logged
(lines 362-366) and the handler continues to the same 201 response, and no
variant issues any rollback of the auth account. -/
def registroEstudianteV2 (b : RegBody) (insts : List Institucion) (instFail : Bool)
    (signUpResult : Except String AuthUser) (insertFail : Bool) :
    RegResponse × List ExtCall :=
  if allFieldsPresent b = false then
    (⟨400, false, some "Todos los campos son requeridos", none, none⟩, [])
  else
    let lookup : Option Institucion :=
      if instFail then none
      else singleRow (matchingInstituciones insts (b.codigo_institucion.getD ""))
    match lookup with
    | none => (⟨400, false, some "Código de institución inválido", none, none⟩,
        [.instLookup])
    | some inst =>
      match signUpResult with
      | .error m => (⟨400, false, some ("Error al crear usuario: " ++ m), none, none⟩,
          [.instLookup, .signUp])
      | .ok au =>
        -- the insert outcome is inspected only for logging; the response is
        -- built from the auth user and institution either way
        let _ : Bool := insertFail
        (⟨201, true, none, some "Estudiante registrado exitosamente",
            some ⟨au.id, au.email, b.nombre.getD "", b.apellidos.getD "",
              "estudiante", b.grado.getD "", inst.nombre⟩⟩,
          [.instLookup, .signUp, .insertUsuario])

/-! ## Login (POST /api/auth/login) -/

/-- The `user_metadata` of a Supabase auth user (fields the handlers read);
each may be absent. -/
structure Metadata where
  nombre : Option String
  apellidos : Option String
  rol : Option String
  grado : Option String
deriving DecidableEq, Repr

/-- The user object of a successful auth call (`authData.user`). -/
structure AuthLoginUser where
  id : String
  email : String
  user_metadata : Metadata
deriving DecidableEq, Repr

/-- The session of a successful auth call (`authData.session`); only the
access token is modelled. -/
structure Session where
  access_token : String
deriving DecidableEq, Repr

/-- The `user` object of a 200 login response of part_001; `institucion` is
`none` on the metadata-fallback branch, whose body has no such field. -/
structure LoginUser where
  id : String
  email : String
  nombre : String
  apellidos : String
  rol : String
  grado : String
  institucion : Option String
deriving DecidableEq, Repr

/-- Response of the part_001 login handler. -/
structure LoginResponse where
  status : Nat
  success : Bool
  error : Option String
  message : Option String
  user : Option LoginUser
  session : Option Session
deriving DecidableEq, Repr

/-- The usuarios lookup filter of the part_001 login:
eq email e, eq activo true (then `.single()`). -/
def matchingUsuarios (usuarios : List Usuario) (e : String) : List Usuario :=
  usuarios.filter (fun u => u.email == e && u.activo)

/-- The embedded join `instituciones(nombre, codigo_acceso)` of a usuarios
row: the institution whose id is the row's `institucion_id` (left join). -/
def usuarioInstitucion (insts : List Institucion) (u : Usuario) : Option Institucion :=
  u.institucion_id.bind (fun iid => insts.find? (fun i => i.id == iid))

/-- POST /api/auth/login of part_001 (lines 392-467).  `authResult` is the
outcome of `signInWithPassword`; `userLookupFail` is a transport failure of
the follow-up usuarios query (which, like a zero-or-many row count, makes
`.single()` report an error). -/
def login (email password : Option String)
    (authResult : Except String (AuthLoginUser × Session))
    (usuarios : List Usuario) (insts : List Institucion)
    (userLookupFail : Bool) : LoginResponse :=
  if (truthy email && truthy password) = false then
    ⟨400, false, some "Email y contraseña son requeridos", none, none, none⟩
  else
    match authResult with
    | .error _ => ⟨401, false, some "Credenciales inválidas", none, none, none⟩
    | .ok (au, sess) =>
      let row : Option Usuario :=
        if userLookupFail then none
        else singleRow (matchingUsuarios usuarios (email.getD ""))
      match row with
      | none =>
        ⟨200, true, none, some "Login exitoso",
          some ⟨au.id, au.email,
            jsOr au.user_metadata.nombre "Usuario",
            jsOr au.user_metadata.apellidos "",
            jsOr au.user_metadata.rol "estudiante",
            jsOr au.user_metadata.grado "sin-grado", none⟩,
          some sess⟩
      | some u =>
        ⟨200, true, none, some "Login exitoso",
          some ⟨u.id, email.getD "", u.nombre, u.apellidos, u.rol, u.grado,
            some (jsOr ((usuarioInstitucion insts u).map (fun i => i.nombre))
              "Sin institución")⟩,
          some sess⟩

/-- The user of a 200 login response of part_000: the raw usuarios row when
the follow-up lookup found one, else the raw auth user
(`user: userData || authData.user`). -/
inductive LoginV0User where
  | fromTable (u : Usuario)
  | fromAuth (au : AuthLoginUser)
deriving DecidableEq, Repr

/-- Response of the part_000 login handler. -/
structure LoginV0Response where
  status : Nat
  error : Option String
  message : Option String
  user : Option LoginV0User
  session : Option Session
deriving DecidableEq, Repr

/-- POST /api/auth/login of part_000 (lines 187-231).  The usuarios lookup
filters on email only (no activo filter) and its error is ignored. -/
def loginV0 (email password : Option String)
    (authResult : Except String (AuthLoginUser × Session))
    (usuarios : List Usuario) (userLookupFail : Bool) : LoginV0Response :=
  if (truthy email && truthy password) = false then
    ⟨400, some "Email y contraseña son requeridos", none, none, none⟩
  else
    match authResult with
    | .error _ => ⟨401, some "Credenciales inválidas", none, none, none⟩
    | .ok (au, sess) =>
      let row : Option Usuario :=
        if userLookupFail then none
        else singleRow (usuarios.filter (fun u => u.email == email.getD ""))
      ⟨200, none, some "Login exitoso",
        some (match row with
          | some u => .fromTable u
          | none => .fromAuth au),
        some sess⟩

/-! ## Error branches (environment-dependent detail) -/

/-- Response of the catch-all error middleware. -/
structure ErrMiddlewareResponse where
  status : Nat
  error : String
  message : String
deriving DecidableEq, Repr

/-- Catch-all error middleware (server.js lines 316-322, identical in both
variants): the exception message is exposed exactly when NODE_ENV is the
string development, any other environment gets the generic message. -/
def errorMiddleware (env : String) (errMessage : String) : ErrMiddlewareResponse :=
  ⟨500, "Algo salió mal!",
    if env == "development" then errMessage else "Error interno del servidor"⟩

/-- Response of a route-level catch branch. -/
structure CatchResponse where
  status : Nat
  error : String
  details : Option String
deriving DecidableEq, Repr

/-- Route-level catch of GET /api/niveles (server.js lines 131-137): the
environment is not consulted, `details` always carries the exception
message. -/
def nivelesCatch (env : String) (errMessage : String) : CatchResponse :=
  let _ : String := env
  ⟨500, "Error interno del servidor", some errMessage⟩

/-- Route-level catch of POST /api/auth/registro-estudiante in part_001
(lines 382-388): the environment is not consulted, `details` always carries
the exception message. -/
def registroCatchV2 (env : String) (errMessage : String) : CatchResponse :=
  let _ : String := env
  ⟨500, "Error interno del servidor", some errMessage⟩

/-- Spec-side merge function of the fallback chain, following the spec's
words (prefer profile-store data, fall back to auth-provided metadata, then
a default): the profile-store value when a profile row supplied one, else
the auth metadata value unless absent or empty, else the default.  Used to
compare the login handler's response shaping against the spec. -/
def specMergeField (profile : Option String) (meta : Option String)
    (defaultVal : String) : String :=
  match profile with
  | some v => v
  | none => jsOr meta defaultVal

/-! ## Helper lemmas -/

/-- `.single()` reports an error exactly when the filtered result set does
not have exactly one row. -/
theorem singleRow_eq_none {α : Type} (l : List α) :
    singleRow l = none ↔ l.length ≠ 1 := by
  cases l with
  | nil => simp [singleRow]
  | cons a t => cases t <;> simp [singleRow]

/-- On a successful auth call, the part_001 login answers 200 and passes
the auth session through, on both branches of the usuarios lookup. -/
theorem login_ok_status_session (email password : Option String)
    (au : AuthLoginUser) (s : Session) (usuarios : List Usuario)
    (insts : List Institucion) (fail : Bool)
    (he : truthy email = true) (hp : truthy password = true) :
    (login email password (.ok (au, s)) usuarios insts fail).status = 200 ∧
    (login email password (.ok (au, s)) usuarios insts fail).session = some s := by
  cases hrow : (if fail then none
      else singleRow (matchingUsuarios usuarios (email.getD ""))) with
  | none => simp [login, he, hp, hrow]
  | some u => simp [login, he, hp, hrow]

/-- On a successful auth call, the part_000 login answers 200 and passes
the auth session through. -/
theorem loginV0_ok_status_session (email password : Option String)
    (au : AuthLoginUser) (s : Session) (usuarios : List Usuario) (fail : Bool)
    (he : truthy email = true) (hp : truthy password = true) :
    (loginV0 email password (.ok (au, s)) usuarios fail).status = 200 ∧
    (loginV0 email password (.ok (au, s)) usuarios fail).session = some s := by
  simp [loginV0, he, hp]

/-- Insertion sort by an integer key yields a list sorted ascending by that
key. -/
theorem sorted_insertionSort_key {α : Type} (key : α → Int) (l : List α) :
    List.Sorted (fun a b => key a ≤ key b)
      (List.insertionSort (fun a b => key a ≤ key b) l) := by
  haveI : IsTotal α (fun a b => key a ≤ key b) :=
    ⟨fun a b => Int.le_total (key a) (key b)⟩
  haveI : IsTrans α (fun a b => key a ≤ key b) :=
    ⟨fun a b c hab hbc => le_trans hab hbc⟩
  exact List.sorted_insertionSort _ l

/-- Joined course rows built from any filtered-and-sorted course list: all
rows satisfy the filter's consequence on activo, and the join preserves
sortedness by orden_curso. -/
theorem cursoRows_active_sorted (niveles : List Nivel) (p : Curso → Bool)
    (cursos : List Curso) (hp : ∀ c, p c = true → c.activo = true) :
    (∀ x ∈ (List.insertionSort (fun a b => a.orden_curso ≤ b.orden_curso)
        (cursos.filter p)).map (joinNivel niveles), x.curso.activo = true) ∧
    List.Sorted (fun a b : CursoRow => a.curso.orden_curso ≤ b.curso.orden_curso)
      ((List.insertionSort (fun a b => a.orden_curso ≤ b.orden_curso)
        (cursos.filter p)).map (joinNivel niveles)) := by
  constructor
  · intro x hx
    obtain ⟨c, hc, rfl⟩ := List.mem_map.mp hx
    have hmem := (List.mem_insertionSort _).mp hc
    exact hp c (List.mem_filter.mp hmem).2
  · exact (sorted_insertionSort_key (fun c : Curso => c.orden_curso) _).map _
      (fun a b h => h)

/-- Every row of the sorted niveles query is active, and the query is
sorted ascending by orden_nivel. -/
theorem queryNiveles_active_sorted (t : List Nivel) :
    (∀ x ∈ queryNiveles t, x.activo = true) ∧
    List.Sorted (fun a b : Nivel => a.orden_nivel ≤ b.orden_nivel)
      (queryNiveles t) := by
  constructor
  · intro x hx
    have hmem : x ∈ t.filter (fun n => n.activo) :=
      (List.mem_insertionSort _).mp hx
    exact (List.mem_filter.mp hmem).2
  · exact sorted_insertionSort_key (fun n : Nivel => n.orden_nivel) _

/-- Every row of the cursos-by-level query is active, and the query is
sorted ascending by orden_curso. -/
theorem queryCursosByNivel_active_sorted (nivelId : Nat) (niveles : List Nivel)
    (cursos : List Curso) :
    (∀ x ∈ queryCursosByNivel nivelId niveles cursos, x.curso.activo = true) ∧
    List.Sorted (fun a b : CursoRow => a.curso.orden_curso ≤ b.curso.orden_curso)
      (queryCursosByNivel nivelId niveles cursos) :=
  cursoRows_active_sorted niveles (fun c => c.nivel_id == nivelId && c.activo)
    cursos (fun _ hc => (Bool.and_eq_true_iff.mp hc).2)

/-- Every row of the all-cursos query is active, and the query is sorted
ascending by orden_curso, whatever the optional level filter did. -/
theorem queryCursosAll_active_sorted (nivelParam : Option String)
    (niveles : List Nivel) (cursos : List Curso) :
    (∀ x ∈ queryCursosAll nivelParam niveles cursos, x.curso.activo = true) ∧
    List.Sorted (fun a b : CursoRow => a.curso.orden_curso ≤ b.curso.orden_curso)
      (queryCursosAll nivelParam niveles cursos) := by
  unfold queryCursosAll
  cases h : nivelFilterId nivelParam niveles with
  | none =>
    exact cursoRows_active_sorted niveles (fun c => c.activo) cursos
      (fun _ hc => hc)
  | some i =>
    exact cursoRows_active_sorted niveles (fun c => c.activo && c.nivel_id == i)
      cursos (fun _ hc => (Bool.and_eq_true_iff.mp hc).1)

/-- Every row of the lecciones query is active, and the query is sorted
ascending by orden_leccion. -/
theorem queryLecciones_active_sorted (cursoId : Nat) (t : List Leccion) :
    (∀ x ∈ queryLecciones cursoId t, x.activo = true) ∧
    List.Sorted (fun a b : Leccion => a.orden_leccion ≤ b.orden_leccion)
      (queryLecciones cursoId t) := by
  constructor
  · intro x hx
    have hmem := (List.mem_insertionSort _).mp hx
    have hpred := (List.mem_filter.mp hmem).2
    exact (Bool.and_eq_true_iff.mp hpred).2
  · exact sorted_insertionSort_key (fun l : Leccion => l.orden_leccion) _

/-- Every row of the instituciones query is active; no ordering is applied,
the rows keep their upstream order. -/
theorem queryInstituciones_active (t : List Institucion) :
    (∀ x ∈ queryInstituciones t, x.activo = true) ∧
    queryInstituciones t = t.filter (fun i => i.activo) := by
  exact ⟨fun x hx => (List.mem_filter.mp hx).2, rfl⟩

end Gateway

namespace Gateway

/-! ## Claims -/

/-- C1: a registration request in which any of the six required fields is
missing or falsy gets a 400 response with an error field, and no external
call is made (no institution lookup, no account creation). -/
theorem registro_missing_field_400_no_calls (b : RegBody) (insts : List Institucion)
    (instFail : Bool) (signUpResult : Except String AuthUser)
    (h : allFieldsPresent b = false) :
    (registroEstudiante b insts instFail signUpResult).1.status = 400 ∧
    (registroEstudiante b insts instFail signUpResult).1.error.isSome = true ∧
    (registroEstudiante b insts instFail signUpResult).2 = [] := by
  simp [registroEstudiante, h]

/-- C1 witness: a concrete request with a missing nombre field. -/
theorem registro_missing_field_400_no_calls_witness :
    allFieldsPresent ⟨none, some "Perez", some "a@b.c", some "pw", some "COD", some "5"⟩
        = false ∧
    ((registroEstudiante
        ⟨none, some "Perez", some "a@b.c", some "pw", some "COD", some "5"⟩
        [] false (.error "x")).1.status = 400 ∧
      (registroEstudiante
        ⟨none, some "Perez", some "a@b.c", some "pw", some "COD", some "5"⟩
        [] false (.error "x")).1.error.isSome = true ∧
      (registroEstudiante
        ⟨none, some "Perez", some "a@b.c", some "pw", some "COD", some "5"⟩
        [] false (.error "x")).2 = []) :=
  ⟨by decide,
    registro_missing_field_400_no_calls _ _ _ _ (by decide)⟩

/-- C2: a registration request with all six fields present whose
institution code does not match exactly one active institution (the lookup
fails, or the filtered row count is not one) gets 400, and the trace shows
the institution lookup as the only external call: signUp is never reached,
so no account is created. -/
theorem registro_bad_institution_400_no_signup (b : RegBody)
    (insts : List Institucion) (instFail : Bool)
    (signUpResult : Except String AuthUser)
    (hfields : allFieldsPresent b = true)
    (hno : instFail = true ∨
      (matchingInstituciones insts (b.codigo_institucion.getD "")).length ≠ 1) :
    (registroEstudiante b insts instFail signUpResult).1.status = 400 ∧
    (registroEstudiante b insts instFail signUpResult).2 = [ExtCall.instLookup] ∧
    ExtCall.signUp ∉ (registroEstudiante b insts instFail signUpResult).2 := by
  have hlookup :
      (if instFail then none
        else singleRow (matchingInstituciones insts (b.codigo_institucion.getD "")))
        = (none : Option Institucion) := by
    rcases hno with h | h
    · simp [h]
    · rcases Bool.eq_false_or_eq_true instFail with hf | hf
      · simp [hf]
      · simp only [hf, if_false, Bool.false_eq_true]
        exact (singleRow_eq_none _).mpr h
  simp [registroEstudiante, hfields, hlookup]

/-- C2 witness: a concrete request whose code matches no institution. -/
theorem registro_bad_institution_400_no_signup_witness :
    allFieldsPresent
        ⟨some "Ana", some "Perez", some "a@b.c", some "pw", some "NOPE", some "5"⟩
        = true ∧
    ((registroEstudiante
        ⟨some "Ana", some "Perez", some "a@b.c", some "pw", some "NOPE", some "5"⟩
        [⟨1, "Colegio", "COD", true⟩] false (.ok ⟨"u1", "a@b.c"⟩)).1.status = 400 ∧
      (registroEstudiante
        ⟨some "Ana", some "Perez", some "a@b.c", some "pw", some "NOPE", some "5"⟩
        [⟨1, "Colegio", "COD", true⟩] false (.ok ⟨"u1", "a@b.c"⟩)).2
        = [ExtCall.instLookup] ∧
      ExtCall.signUp ∉ (registroEstudiante
        ⟨some "Ana", some "Perez", some "a@b.c", some "pw", some "NOPE", some "5"⟩
        [⟨1, "Colegio", "COD", true⟩] false (.ok ⟨"u1", "a@b.c"⟩)).2) :=
  ⟨by decide,
    registro_bad_institution_400_no_signup _ _ _ _ (by decide) (Or.inr (by decide))⟩

/-- C3: a registration request with all six fields present, an institution
code matching exactly one active institution, and a successful signUp gets
a 201 response whose user carries the created auth user's id and email and
the matched institution's name. -/
theorem registro_success_201 (b : RegBody) (insts : List Institucion)
    (inst : Institucion) (au : AuthUser)
    (hfields : allFieldsPresent b = true)
    (hinst : matchingInstituciones insts (b.codigo_institucion.getD "") = [inst]) :
    (registroEstudiante b insts false (.ok au)).1.status = 201 ∧
    ((registroEstudiante b insts false (.ok au)).1.user.map (fun u => u.id))
      = some au.id ∧
    ((registroEstudiante b insts false (.ok au)).1.user.map (fun u => u.email))
      = some au.email ∧
    ((registroEstudiante b insts false (.ok au)).1.user.map (fun u => u.institucion))
      = some inst.nombre := by
  simp [registroEstudiante, hfields, hinst, singleRow]

/-- C3 witness: a concrete fully valid registration. -/
theorem registro_success_201_witness :
    allFieldsPresent
        ⟨some "Ana", some "Perez", some "a@b.c", some "pw", some "COD", some "5"⟩
        = true ∧
    matchingInstituciones [⟨1, "Colegio", "COD", true⟩] "COD"
        = [⟨1, "Colegio", "COD", true⟩] ∧
    ((registroEstudiante
        ⟨some "Ana", some "Perez", some "a@b.c", some "pw", some "COD", some "5"⟩
        [⟨1, "Colegio", "COD", true⟩] false (.ok ⟨"u1", "a@b.c"⟩)).1.status = 201 ∧
      ((registroEstudiante
        ⟨some "Ana", some "Perez", some "a@b.c", some "pw", some "COD", some "5"⟩
        [⟨1, "Colegio", "COD", true⟩] false
          (.ok ⟨"u1", "a@b.c"⟩)).1.user.map (fun u => u.id)) = some "u1" ∧
      ((registroEstudiante
        ⟨some "Ana", some "Perez", some "a@b.c", some "pw", some "COD", some "5"⟩
        [⟨1, "Colegio", "COD", true⟩] false
          (.ok ⟨"u1", "a@b.c"⟩)).1.user.map (fun u => u.email)) = some "a@b.c" ∧
      ((registroEstudiante
        ⟨some "Ana", some "Perez", some "a@b.c", some "pw", some "COD", some "5"⟩
        [⟨1, "Colegio", "COD", true⟩] false
          (.ok ⟨"u1", "a@b.c"⟩)).1.user.map (fun u => u.institucion))
        = some "Colegio") :=
  ⟨by decide, by decide,
    registro_success_201 _ _ ⟨1, "Colegio", "COD", true⟩ ⟨"u1", "a@b.c"⟩
      (by decide) (by decide)⟩

/-- C4: a login request with email and password present answers 401 when
the external auth call reports an error, and 200 with the auth session
passed through (hence a non-empty token whenever the auth service issued
one) when it succeeds; both login variants behave so. -/
theorem login_auth_outcome (email password : Option String)
    (usuarios : List Usuario) (insts : List Institucion) (fail failV0 : Bool)
    (he : truthy email = true) (hp : truthy password = true) :
    (∀ e : String,
      (login email password (.error e) usuarios insts fail).status = 401 ∧
      (loginV0 email password (.error e) usuarios failV0).status = 401) ∧
    (∀ (au : AuthLoginUser) (s : Session),
      (login email password (.ok (au, s)) usuarios insts fail).status = 200 ∧
      (login email password (.ok (au, s)) usuarios insts fail).session = some s ∧
      (loginV0 email password (.ok (au, s)) usuarios failV0).status = 200 ∧
      (loginV0 email password (.ok (au, s)) usuarios failV0).session = some s ∧
      (s.access_token ≠ "" →
        ((login email password (.ok (au, s)) usuarios insts fail).session.map
            (fun x => x.access_token)) = some s.access_token ∧
          s.access_token ≠ "")) := by
  constructor
  · intro e
    constructor
    · simp [login, he, hp]
    · simp [loginV0, he, hp]
  · intro au s
    obtain ⟨h1, h2⟩ := login_ok_status_session email password au s usuarios insts fail he hp
    obtain ⟨h3, h4⟩ := loginV0_ok_status_session email password au s usuarios failV0 he hp
    exact ⟨h1, h2, h3, h4, fun hs => ⟨by rw [h2]; rfl, hs⟩⟩

/-- C4 witness: concrete login requests, one failing and one succeeding
upstream. -/
theorem login_auth_outcome_witness :
    truthy (some "a@b.c") = true ∧
    ((login (some "a@b.c") (some "pw") (.error "bad") [] [] false).status = 401 ∧
      (loginV0 (some "a@b.c") (some "pw") (.error "bad") [] false).status = 401) ∧
    ((login (some "a@b.c") (some "pw")
        (.ok (⟨"u1", "a@b.c", ⟨none, none, none, none⟩⟩, ⟨"tok"⟩)) [] [] false).status
        = 200 ∧
      (login (some "a@b.c") (some "pw")
        (.ok (⟨"u1", "a@b.c", ⟨none, none, none, none⟩⟩, ⟨"tok"⟩)) [] [] false).session
        = some ⟨"tok"⟩) := by
  have h := login_auth_outcome (some "a@b.c") (some "pw") [] [] false false
    (by decide) (by decide)
  refine ⟨by decide, h.1 "bad", ?_, ?_⟩
  · exact (h.2 ⟨"u1", "a@b.c", ⟨none, none, none, none⟩⟩ ⟨"tok"⟩).1
  · exact (h.2 ⟨"u1", "a@b.c", ⟨none, none, none, none⟩⟩ ⟨"tok"⟩).2.1

/-- C7: on a successful login the handler always answers 200, and each
field of the returned user summary equals the spec's merge function with
precedence profile-store row first, then auth metadata, then a default;
in particular, when the profile lookup finds no row, the summary is built
from the auth metadata with defaults, and when a row exists its fields take
precedence. -/
theorem login_profile_fallback (email password : Option String)
    (au : AuthLoginUser) (s : Session) (usuarios : List Usuario)
    (insts : List Institucion)
    (he : truthy email = true) (hp : truthy password = true) :
    (login email password (.ok (au, s)) usuarios insts false).status = 200 ∧
    ((login email password (.ok (au, s)) usuarios insts false).user.map
        (fun u => u.nombre))
      = some (specMergeField
          ((singleRow (matchingUsuarios usuarios (email.getD ""))).map
            (fun u => u.nombre))
          au.user_metadata.nombre "Usuario") ∧
    ((login email password (.ok (au, s)) usuarios insts false).user.map
        (fun u => u.apellidos))
      = some (specMergeField
          ((singleRow (matchingUsuarios usuarios (email.getD ""))).map
            (fun u => u.apellidos))
          au.user_metadata.apellidos "") ∧
    ((login email password (.ok (au, s)) usuarios insts false).user.map
        (fun u => u.rol))
      = some (specMergeField
          ((singleRow (matchingUsuarios usuarios (email.getD ""))).map
            (fun u => u.rol))
          au.user_metadata.rol "estudiante") ∧
    ((login email password (.ok (au, s)) usuarios insts false).user.map
        (fun u => u.grado))
      = some (specMergeField
          ((singleRow (matchingUsuarios usuarios (email.getD ""))).map
            (fun u => u.grado))
          au.user_metadata.grado "sin-grado") := by
  cases hrow : singleRow (matchingUsuarios usuarios (email.getD "")) with
  | none => simp [login, he, hp, hrow, specMergeField]
  | some u => simp [login, he, hp, hrow, specMergeField]

/-- C7 witness: a successful login against an empty usuarios table falls
back to metadata and defaults. -/
theorem login_profile_fallback_witness :
    truthy (some "a@b.c") = true ∧
    (login (some "a@b.c") (some "pw")
        (.ok (⟨"u1", "a@b.c", ⟨some "Ana", none, none, none⟩⟩, ⟨"tok"⟩))
        [] [] false).status = 200 ∧
    ((login (some "a@b.c") (some "pw")
        (.ok (⟨"u1", "a@b.c", ⟨some "Ana", none, none, none⟩⟩, ⟨"tok"⟩))
        [] [] false).user.map (fun u => u.nombre))
      = some (specMergeField none (some "Ana") "Usuario") := by
  have h := login_profile_fallback (some "a@b.c") (some "pw")
    ⟨"u1", "a@b.c", ⟨some "Ana", none, none, none⟩⟩ ⟨"tok"⟩ [] []
    (by decide) (by decide)
  exact ⟨by decide, h.1, h.2.1⟩

/-- C9: in the part_001 variant, when signUp succeeds and the usuarios
insert fails, the handler still answers 201 with the created-user summary,
the response equals the one of a successful insert, and the trace shows no
rollback of the auth account. -/
theorem registro_insert_failure_still_201 (b : RegBody)
    (insts : List Institucion) (inst : Institucion) (au : AuthUser)
    (hfields : allFieldsPresent b = true)
    (hinst : matchingInstituciones insts (b.codigo_institucion.getD "") = [inst]) :
    (registroEstudianteV2 b insts false (.ok au) true).1.status = 201 ∧
    (registroEstudianteV2 b insts false (.ok au) true).1.user
      = some ⟨au.id, au.email, b.nombre.getD "", b.apellidos.getD "",
          "estudiante", b.grado.getD "", inst.nombre⟩ ∧
    (registroEstudianteV2 b insts false (.ok au) true).1
      = (registroEstudianteV2 b insts false (.ok au) false).1 ∧
    ExtCall.deleteUser ∉ (registroEstudianteV2 b insts false (.ok au) true).2 := by
  simp [registroEstudianteV2, hfields, hinst, singleRow]

/-- C9 witness: a concrete valid registration whose usuarios insert
fails. -/
theorem registro_insert_failure_still_201_witness :
    allFieldsPresent
        ⟨some "Ana", some "Perez", some "a@b.c", some "pw", some "COD", some "5"⟩
        = true ∧
    ((registroEstudianteV2
        ⟨some "Ana", some "Perez", some "a@b.c", some "pw", some "COD", some "5"⟩
        [⟨1, "Colegio", "COD", true⟩] false (.ok ⟨"u1", "a@b.c"⟩) true).1.status
        = 201 ∧
      ExtCall.deleteUser ∉ (registroEstudianteV2
        ⟨some "Ana", some "Perez", some "a@b.c", some "pw", some "COD", some "5"⟩
        [⟨1, "Colegio", "COD", true⟩] false (.ok ⟨"u1", "a@b.c"⟩) true).2) := by
  have h := registro_insert_failure_still_201
    ⟨some "Ana", some "Perez", some "a@b.c", some "pw", some "COD", some "5"⟩
    [⟨1, "Colegio", "COD", true⟩] ⟨1, "Colegio", "COD", true⟩ ⟨"u1", "a@b.c"⟩
    (by decide) (by decide)
  exact ⟨by decide, h.1, h.2.2.2⟩

/-- C5 as stated is false: GET /api/instituciones applies no ordering
clause and the Institucion entity has no display-order column, so on an
upstream store holding two active institutions in descending id, name and
code order the success response keeps that descending order instead of
being sorted ascending. -/
theorem instituciones_unsorted_counterexample :
    (institucionesHandler (.ok (queryInstituciones
        [⟨2, "b", "y", true⟩, ⟨1, "a", "x", true⟩]))).status = 200 ∧
    (institucionesHandler (.ok (queryInstituciones
        [⟨2, "b", "y", true⟩, ⟨1, "a", "x", true⟩]))).items
      = [⟨2, "b", "y", true⟩, ⟨1, "a", "x", true⟩] ∧
    ¬ List.Sorted (fun a b : Institucion => a.id ≤ b.id)
        (institucionesHandler (.ok (queryInstituciones
          [⟨2, "b", "y", true⟩, ⟨1, "a", "x", true⟩]))).items := by
  refine ⟨rfl, by decide, ?_⟩
  intro h
  have h21 : (2 : Nat) ≤ 1 :=
    (List.pairwise_cons.mp h).1 ⟨1, "a", "x", true⟩ (by simp)
  omega

/-- C5 amended: every list endpoint answers 200 on upstream success with
count equal to the array length and only active rows; the arrays of
/api/niveles, /api/cursos, /api/cursos/:nivelId and /api/lecciones/:cursoId
are sorted ascending by their order field, while /api/instituciones applies
no ordering and returns the active rows in upstream order. -/
theorem list_endpoints_success_shape (tN niveles : List Nivel) (tC : List Curso)
    (tL : List Leccion) (tI : List Institucion) (nivelId cursoId : Nat)
    (nivelParam : Option String) :
    (nivelesHandler (.ok (queryNiveles tN))).status = 200 ∧
    (nivelesHandler (.ok (queryNiveles tN))).count
      = (nivelesHandler (.ok (queryNiveles tN))).items.length ∧
    (∀ x ∈ (nivelesHandler (.ok (queryNiveles tN))).items, x.activo = true) ∧
    List.Sorted (fun a b : Nivel => a.orden_nivel ≤ b.orden_nivel)
      (nivelesHandler (.ok (queryNiveles tN))).items ∧
    (cursosHandler (.ok (queryCursosByNivel nivelId niveles tC))).status = 200 ∧
    (cursosHandler (.ok (queryCursosByNivel nivelId niveles tC))).count
      = (cursosHandler (.ok (queryCursosByNivel nivelId niveles tC))).items.length ∧
    (∀ x ∈ (cursosHandler (.ok (queryCursosByNivel nivelId niveles tC))).items,
      x.curso.activo = true) ∧
    List.Sorted (fun a b : CursoRow => a.curso.orden_curso ≤ b.curso.orden_curso)
      (cursosHandler (.ok (queryCursosByNivel nivelId niveles tC))).items ∧
    (cursosAllEndpoint nivelParam niveles tC).status = 200 ∧
    (cursosAllEndpoint nivelParam niveles tC).count
      = (cursosAllEndpoint nivelParam niveles tC).items.length ∧
    (∀ x ∈ (cursosAllEndpoint nivelParam niveles tC).items,
      x.curso.activo = true) ∧
    List.Sorted (fun a b : CursoRow => a.curso.orden_curso ≤ b.curso.orden_curso)
      (cursosAllEndpoint nivelParam niveles tC).items ∧
    (leccionesHandler (.ok (queryLecciones cursoId tL))).status = 200 ∧
    (leccionesHandler (.ok (queryLecciones cursoId tL))).count
      = (leccionesHandler (.ok (queryLecciones cursoId tL))).items.length ∧
    (∀ x ∈ (leccionesHandler (.ok (queryLecciones cursoId tL))).items,
      x.activo = true) ∧
    List.Sorted (fun a b : Leccion => a.orden_leccion ≤ b.orden_leccion)
      (leccionesHandler (.ok (queryLecciones cursoId tL))).items ∧
    (institucionesHandler (.ok (queryInstituciones tI))).status = 200 ∧
    (institucionesHandler (.ok (queryInstituciones tI))).count
      = (institucionesHandler (.ok (queryInstituciones tI))).items.length ∧
    (∀ x ∈ (institucionesHandler (.ok (queryInstituciones tI))).items,
      x.activo = true) ∧
    (institucionesHandler (.ok (queryInstituciones tI))).items
      = tI.filter (fun i => i.activo) :=
  ⟨rfl, rfl, (queryNiveles_active_sorted tN).1, (queryNiveles_active_sorted tN).2,
    rfl, rfl, (queryCursosByNivel_active_sorted nivelId niveles tC).1,
    (queryCursosByNivel_active_sorted nivelId niveles tC).2,
    rfl, rfl, (queryCursosAll_active_sorted nivelParam niveles tC).1,
    (queryCursosAll_active_sorted nivelParam niveles tC).2,
    rfl, rfl, (queryLecciones_active_sorted cursoId tL).1,
    (queryLecciones_active_sorted cursoId tL).2,
    rfl, rfl, (queryInstituciones_active tI).1, rfl⟩

/-- C6 as stated is false: in the production environment the route-level
catch branches of server.js (niveles) and part_001 (registro) still expose
the underlying exception message in `details`, and the catch-all middleware
keys on NODE_ENV being exactly development, so a non-production and
non-development environment such as staging also gets the generic
message. -/
theorem error_detail_env_counterexample :
    (nivelesCatch "production" "boom").details = some "boom" ∧
    (nivelesCatch "production" "boom").details
      ≠ some "Error interno del servidor" ∧
    (registroCatchV2 "production" "boom").details = some "boom" ∧
    (errorMiddleware "staging" "boom").message = "Error interno del servidor" := by
  refine ⟨rfl, by decide, rfl, by decide⟩

/-- C6 amended: the catch-all error middleware includes the underlying
exception message exactly when NODE_ENV is the string development and
substitutes the generic message in every other environment (production
included), while the route-level catch branches of server.js and part_001
put the underlying message into `details` unconditionally, in every
environment. -/
theorem error_detail_env_policy (env msg : String) :
    (env = "development" → (errorMiddleware env msg).message = msg) ∧
    (env ≠ "development" →
      (errorMiddleware env msg).message = "Error interno del servidor") ∧
    (nivelesCatch env msg).details = some msg ∧
    (registroCatchV2 env msg).details = some msg := by
  refine ⟨fun h => ?_, fun h => ?_, rfl, rfl⟩
  · subst h
    simp [errorMiddleware]
  · simp [errorMiddleware, beq_iff_eq, h]

/-- C6 amended witness: concrete environments on both sides of the
middleware's check, and a production route-level catch. -/
theorem error_detail_env_policy_witness :
    (errorMiddleware "development" "boom").message = "boom" ∧
    (errorMiddleware "production" "boom").message = "Error interno del servidor" ∧
    (nivelesCatch "production" "boom").details = some "boom" :=
  ⟨(error_detail_env_policy "development" "boom").1 rfl,
    (error_detail_env_policy "production" "boom").2.1 (by decide),
    (error_detail_env_policy "production" "boom").2.2.1⟩

/-- C8: every GET list handler is a deterministic function of the upstream
query result alone: two requests served over identical unchanged upstream
data produce identical responses, in particular identical
niveles/cursos/lecciones/instituciones arrays. -/
theorem list_endpoints_deterministic
    (rN rN' : Except String (List Nivel)) (rC rC' : Except String (List CursoRow))
    (rA rA' : Except String (List CursoRow)) (rL rL' : Except String (List Leccion))
    (rI rI' : Except String (List Institucion))
    (hN : rN = rN') (hC : rC = rC') (hA : rA = rA') (hL : rL = rL')
    (hI : rI = rI') :
    nivelesHandler rN = nivelesHandler rN' ∧
    (nivelesHandler rN).items = (nivelesHandler rN').items ∧
    cursosHandler rC = cursosHandler rC' ∧
    (cursosHandler rC).items = (cursosHandler rC').items ∧
    cursosAllHandler rA = cursosAllHandler rA' ∧
    (cursosAllHandler rA).items = (cursosAllHandler rA').items ∧
    leccionesHandler rL = leccionesHandler rL' ∧
    (leccionesHandler rL).items = (leccionesHandler rL').items ∧
    institucionesHandler rI = institucionesHandler rI' ∧
    (institucionesHandler rI).items = (institucionesHandler rI').items := by
  subst hN; subst hC; subst hA; subst hL; subst hI
  exact ⟨rfl, rfl, rfl, rfl, rfl, rfl, rfl, rfl, rfl, rfl⟩

/-- C8 witness: repeated requests over one concrete unchanged store. -/
theorem list_endpoints_deterministic_witness :
    nivelesHandler (.ok (queryNiveles [⟨1, "P", "d", 1, true⟩]))
      = nivelesHandler (.ok (queryNiveles [⟨1, "P", "d", 1, true⟩])) ∧
    (institucionesHandler (.ok (queryInstituciones [⟨1, "C", "K", true⟩]))).items
      = (institucionesHandler (.ok (queryInstituciones [⟨1, "C", "K", true⟩]))).items := by
  have h := list_endpoints_deterministic
    (.ok (queryNiveles [⟨1, "P", "d", 1, true⟩]))
    (.ok (queryNiveles [⟨1, "P", "d", 1, true⟩]))
    (.ok []) (.ok []) (.ok []) (.ok []) (.ok []) (.ok [])
    (.ok (queryInstituciones [⟨1, "C", "K", true⟩]))
    (.ok (queryInstituciones [⟨1, "C", "K", true⟩]))
    rfl rfl rfl rfl rfl
  exact ⟨h.1, h.2.2.2.2.2.2.2.2.2⟩

/-- C10: a GET /api/cursos request whose nivel query parameter names no
level in the store silently drops the level filter: the response is the
same as with no filter, 200, listing every active course across all
levels. -/
theorem cursos_unknown_nivel_filter_dropped (n : String) (niveles : List Nivel)
    (cursos : List Curso)
    (h : niveles.filter (fun v => v.nombre == n) = []) :
    cursosAllEndpoint (some n) niveles cursos
      = cursosAllEndpoint none niveles cursos ∧
    (cursosAllEndpoint (some n) niveles cursos).status = 200 ∧
    (cursosAllEndpoint (some n) niveles cursos).items
      = (List.insertionSort (fun a b => a.orden_curso ≤ b.orden_curso)
          (cursos.filter (fun c => c.activo))).map (joinNivel niveles) := by
  have hf : nivelFilterId (some n) niveles = none := by
    simp [nivelFilterId, h, singleRow]
  have hq : queryCursosAll (some n) niveles cursos
      = queryCursosAll none niveles cursos := by
    simp [queryCursosAll, nivelFilterId, h, singleRow]
  refine ⟨?_, rfl, ?_⟩
  · unfold cursosAllEndpoint
    rw [hq]
  · simp [cursosAllEndpoint, cursosAllHandler, listHandler, queryCursosAll,
      nivelFilterId, h, singleRow]

/-- C10 witness: a store with one level named Primaria and a request
filtering on the unknown name Terciaria. -/
theorem cursos_unknown_nivel_filter_dropped_witness :
    [(⟨1, "Primaria", "d", 1, true⟩ : Nivel)].filter
        (fun v => v.nombre == "Terciaria") = [] ∧
    (cursosAllEndpoint (some "Terciaria") [⟨1, "Primaria", "d", 1, true⟩]
        [⟨1, 1, "Robotica", 1, true⟩]
      = cursosAllEndpoint none [⟨1, "Primaria", "d", 1, true⟩]
        [⟨1, 1, "Robotica", 1, true⟩] ∧
      (cursosAllEndpoint (some "Terciaria") [⟨1, "Primaria", "d", 1, true⟩]
        [⟨1, 1, "Robotica", 1, true⟩]).status = 200) := by
  have h := cursos_unknown_nivel_filter_dropped "Terciaria"
    [⟨1, "Primaria", "d", 1, true⟩] [⟨1, 1, "Robotica", 1, true⟩] (by decide)
  exact ⟨by decide, h.1, h.2.1⟩

end Gateway
